import Mathlib

/-!
Shallow embedding of `glog.py` (a Google-style logging wrapper) and proofs
about its check-failure reporting pipeline, formatter, and sampling filter.

The embedding follows the source module function by function:

* `format_message`, `GlogFormatter.format` — the line formatter;
* `format_stacktrace`, `check_failed`, `check`, `check_eq`, `check_ne`,
  `check_le`, `check_ge`, `check_lt`, `check_gt`, `check_notnone` — the
  check-macro family and its failure-reporting pipeline;
* `conditional_log` (the closure produced by `log_wrapper`) together with
  module-level state runners modelling the per-wrapper counter maps.

Emission through the logging handler is modelled by returning the list of
records that reach the sink; raising an exception is modelled by the
`CheckResult`/`Option` result types.
-/

namespace Glog

/-! ### Decimal rendering (model of Python `%d` / `str` on non-negative ints) -/

/-- Least-significant-first decimal digits of `n`, fuel-based so the kernel can
evaluate it.  `natDigitsAux fuel n` agrees with `Nat.digits 10 n` once
`n ≤ fuel`. -/
def natDigitsAux : Nat → Nat → List Nat
  | 0, _ => []
  | fuel + 1, n => if n = 0 then [] else n % 10 :: natDigitsAux fuel (n / 10)

/-- Decimal digits of `n`, least significant first. -/
def natDigits (n : Nat) : List Nat := natDigitsAux n n

/-- The ASCII character of a decimal digit. -/
def digitChar (d : Nat) : Char := Char.ofNat (48 + d)

/-- Decimal rendering of a natural number, as Python's `str`/`%d` renders a
non-negative integer. -/
def natDecimal (n : Nat) : String :=
  if n = 0 then "0" else String.mk (((natDigits n).map digitChar).reverse)

/-- Model of Python's `%0<width>d` on a non-negative integer: left-pad the
decimal rendering with zeros to at least `width` characters. -/
def pad (width n : Nat) : String :=
  String.mk (List.replicate (width - (natDecimal n).length) '0') ++ natDecimal n

/-! ### `format_message` (glog.py lines 28–33)

A Python `%`-format string is modelled as a list of segments: literal text
interleaved with `%s` conversion specifiers.  `record.msg % record.args`
substitutes the positional arguments in order and raises `TypeError` when the
argument count does not match the specifier count ("not enough arguments" /
"not all arguments converted"); that failure is modelled by `Option`. -/

/-- One segment of a `%`-format string: literal text or a `%s` specifier. -/
inductive Seg where
  | lit : String → Seg
  | conv : Seg
deriving Repr, DecidableEq

/-- The raw text of the format string (a `%s` specifier reads back as the two
characters `%s`). -/
def msgText : List Seg → String
  | [] => ""
  | .lit s :: rest => s ++ msgText rest
  | .conv :: rest => "%s" ++ msgText rest

/-- Number of conversion specifiers in a format string. -/
def placeholders : List Seg → Nat
  | [] => 0
  | .lit _ :: rest => placeholders rest
  | .conv :: rest => 1 + placeholders rest

/-- Model of Python's `msg % args` on `%s`-format strings: substitute the
arguments positionally; `none` models the `TypeError` raised when the argument
tuple is too short or too long. -/
def percentFormat : List Seg → List String → Option String
  | [], [] => some ""
  | [], _ :: _ => none
  | .lit s :: rest, args => (percentFormat rest args).map (fun t => s ++ t)
  | .conv :: _, [] => none
  | .conv :: rest, a :: args => (percentFormat rest args).map (fun t => a ++ t)

/-- glog.py `format_message`: try `record.msg % record.args` and fall back to
the raw message text on `TypeError`. -/
def format_message (msg : List Seg) (args : List String) : String :=
  match percentFormat msg args with
  | some s => s
  | none => msgText msg

/-! ### `GlogFormatter` (glog.py lines 36–75) -/

/-- The fields of `time.localtime(record.created)` used by the formatter. -/
structure DateTm where
  tm_mon : Nat
  tm_mday : Nat
  tm_hour : Nat
  tm_min : Nat
  tm_sec : Nat
deriving Repr, DecidableEq

/-- The fields of a `logging.LogRecord` consumed by `GlogFormatter.format`.
`usec` models `(record.created - int(record.created)) * 1e6` truncated by
`%06d`; `process` is `None` when no process id is available. -/
structure LogRecord where
  levelno : Nat
  date : DateTm
  usec : Nat
  process : Option Nat
  msg : List Seg
  args : List String
deriving Repr, DecidableEq

/-- `GlogFormatter.LEVEL_MAP` lookup with the `KeyError → "?"` fallback:
`logging.FATAL = 50` (alias of `CRITICAL`), `ERROR = 40`, `WARN = 30`,
`INFO = 20`, `DEBUG = 10`. -/
def LEVEL_MAP (levelno : Nat) : String :=
  if levelno = 50 then "F"
  else if levelno = 40 then "E"
  else if levelno = 30 then "W"
  else if levelno = 20 then "I"
  else if levelno = 10 then "D"
  else "?"

/-- `record.process if record.process is not None else "?????"`, rendered by
`%s`. -/
def pid_str : Option Nat → String
  | some p => natDecimal p
  | none => "?????"

/-- `GlogFormatter.format`: the `%`-format
`"%c%02d%02d %02d:%02d:%02d.%06d %s %s:%d] %s"` applied to the severity
letter, the local-time fields, the truncated microseconds, the process id,
the frame's filename and line number, and the formatted message.  The
filename/line pair that `inspect.stack()[-1]` yields is taken as an input. -/
def GlogFormatter.format (r : LogRecord) (filename : String) (lineno : Nat) :
    String :=
  LEVEL_MAP r.levelno ++ pad 2 r.date.tm_mon ++ pad 2 r.date.tm_mday ++ " " ++
  pad 2 r.date.tm_hour ++ ":" ++ pad 2 r.date.tm_min ++ ":" ++
  pad 2 r.date.tm_sec ++ "." ++ pad 6 r.usec ++ " " ++ pid_str r.process ++
  " " ++ filename ++ ":" ++ natDecimal lineno ++ "] " ++
  format_message r.msg r.args

/-! ### Stack traces and the check engine (glog.py lines 205–311) -/

/-- One entry of `traceback.extract_stack()`: the 4-tuple
`(filename, line number, function name, source text)`.  The list is ordered
outermost (oldest) frame first, as Python produces it. -/
structure Frame where
  filename : String
  lineno : Nat
  name : String
  line : String
deriving Repr, DecidableEq

/-- `os.path.basename` on POSIX: the part of the path after the last `/`. -/
def basename (p : String) : String :=
  String.mk ((p.data.reverse.takeWhile (fun c => c != '/')).reverse)

/-- The line built for one frame inside `format_stacktrace`:
`"\t%s:%d\t%s" % (basename(f[0]) + "::" + f[2], f[1], f[3])`. -/
def render_frame_line (f : Frame) : String :=
  "\t" ++ (basename f.filename ++ "::" ++ f.name) ++ ":" ++
    natDecimal f.lineno ++ "\t" ++ f.line

/-- glog.py `format_stacktrace`: one rendered line per frame, in order. -/
def format_stacktrace (stack : List Frame) : List String :=
  stack.map render_frame_line

/-- `stack[0:-2]` as computed in `check_failed`: drop the two innermost
frames (the `check_failed` frame and the check primitive's frame). -/
def trimmed_stack (full_stack : List Frame) : List Frame :=
  full_stack.take (full_stack.length - 2)

/-- A record handed to `handler.handle` (severity number, attributed
file/line, message). -/
structure Record where
  levelno : Nat
  filename : String
  lineno : Nat
  msg : String
deriving Repr, DecidableEq

/-- The records `check_failed` pushes through the handler, in order: one
CRITICAL (50) record with the failure message, one DEBUG (10) record reading
`Check failed here:`, then one DEBUG record per rendered stack-trace line —
every record attributed to `stack[-1]`'s file/line. -/
def failure_records (message : String) (site : Frame) (stack : List Frame) :
    List Record :=
  ⟨50, site.filename, site.lineno, message⟩ ::
  ⟨10, site.filename, site.lineno, "Check failed here:"⟩ ::
  (format_stacktrace stack).map (fun l => ⟨10, site.filename, site.lineno, l⟩)

/-- glog.py `check_failed`, given the stack `traceback.extract_stack()`
captured inside it: trim two frames, emit the failure records, and re-raise
`FailedCheckException(message)`.  The result is the emitted record list
paired with the raised exception's message; `none` models the `IndexError`
from `stack[-1]` when the trimmed stack is empty. -/
def check_failed (message : String) (full_stack : List Frame) :
    Option (List Record × String) :=
  match (trimmed_stack full_stack).getLast? with
  | none => none
  | some site =>
      some (failure_records message site (trimmed_stack full_stack), message)

/-- Outcome of a check primitive: normal return (nothing emitted, nothing
raised), a `FailedCheckException` raised after emitting the given records, or
the out-of-frames `IndexError`. -/
inductive CheckResult where
  | ok : CheckResult
  | failed : List Record → String → CheckResult
  | indexError : CheckResult
deriving Repr, DecidableEq

/-- Run `check_failed` and package its outcome as a `CheckResult`. -/
def run_check_failed (message : String) (full_stack : List Frame) :
    CheckResult :=
  match check_failed message full_stack with
  | none => .indexError
  | some (recs, m) => .failed recs m

/-- glog.py `check(condition, message=None)`: fail if the condition is false.
`full_stack` is the stack that `traceback.extract_stack()` captures inside
`check_failed`; its last two frames are the `check_failed` frame and this
primitive's own frame. -/
def check (condition : Bool) (message : Option String)
    (full_stack : List Frame) : CheckResult :=
  if condition then .ok
  else run_check_failed (message.getD "Check failed.") full_stack

/-- glog.py `check_eq(obj1, obj2, message=None)`: fail if `obj1 != obj2`. -/
def check_eq (obj1 obj2 : Int) (message : Option String)
    (full_stack : List Frame) : CheckResult :=
  if obj1 ≠ obj2 then
    run_check_failed
      (message.getD ("Check failed: " ++ toString obj1 ++ " != " ++
        toString obj2)) full_stack
  else .ok

/-- glog.py `check_ne(obj1, obj2, message=None)`: fail if `obj1 == obj2`. -/
def check_ne (obj1 obj2 : Int) (message : Option String)
    (full_stack : List Frame) : CheckResult :=
  if obj1 = obj2 then
    run_check_failed
      (message.getD ("Check failed: " ++ toString obj1 ++ " == " ++
        toString obj2)) full_stack
  else .ok

/-- glog.py `check_le(obj1, obj2, message=None)`: fail if `obj1 > obj2`. -/
def check_le (obj1 obj2 : Int) (message : Option String)
    (full_stack : List Frame) : CheckResult :=
  if obj1 > obj2 then
    run_check_failed
      (message.getD ("Check failed: " ++ toString obj1 ++ " > " ++
        toString obj2)) full_stack
  else .ok

/-- glog.py `check_ge(obj1, obj2, message=None)`: fail if `obj1 < obj2`. -/
def check_ge (obj1 obj2 : Int) (message : Option String)
    (full_stack : List Frame) : CheckResult :=
  if obj1 < obj2 then
    run_check_failed
      (message.getD ("Check failed: " ++ toString obj1 ++ " < " ++
        toString obj2)) full_stack
  else .ok

/-- glog.py `check_lt(obj1, obj2, message=None)`: fail if `obj1 >= obj2`. -/
def check_lt (obj1 obj2 : Int) (message : Option String)
    (full_stack : List Frame) : CheckResult :=
  if obj1 ≥ obj2 then
    run_check_failed
      (message.getD ("Check failed: " ++ toString obj1 ++ " >= " ++
        toString obj2)) full_stack
  else .ok

/-- glog.py `check_gt(obj1, obj2, message=None)`: fail if `obj1 <= obj2`. -/
def check_gt (obj1 obj2 : Int) (message : Option String)
    (full_stack : List Frame) : CheckResult :=
  if obj1 ≤ obj2 then
    run_check_failed
      (message.getD ("Check failed: " ++ toString obj1 ++ " <= " ++
        toString obj2)) full_stack
  else .ok

/-- glog.py `check_notnone(obj, message=None)`: fail if `obj is None`. -/
def check_notnone (obj : Option Int) (message : Option String)
    (full_stack : List Frame) : CheckResult :=
  if obj = none then
    run_check_failed (message.getD "Check failed: Object is None.") full_stack
  else .ok

/-- The shape of a failing check's outcome, as asserted by the claims: a
`FailedCheckException` carrying `m`, raised after emitting exactly the
`failure_records` for `m` attributed to the last frame of the trimmed
stack. -/
def failsAs (r : CheckResult) (m : String) (st : List Frame) : Prop :=
  ∃ f, (trimmed_stack st).getLast? = some f ∧
    r = .failed (failure_records m f (trimmed_stack st)) m

/-! ### `log_wrapper` / `conditional_log` (glog.py lines 91–126) -/

/-- Model of `hashlib.md5(text.encode("utf-8")).hexdigest()`: an abstract
deterministic key derived from the message text alone.  The proofs below rely
only on it being a deterministic function of the text, so it is modelled as
the identity. -/
def md5_hexdigest (s : String) : String := s

/-- The body of `conditional_log` inside `log_wrapper`, for one call.  The
closure's `defaultdict(int)` counter is the explicit `counter` argument (with
default value 0); `draw` stands for the value of `random.random() * 100`
drawn when `sampling < 100`.  Returns whether the call was forwarded to
`logging.<name>` together with the updated counter map. -/
def conditional_log (counter : String → Nat) (sampling : ℚ) (first_n : Int)
    (draw : ℚ) (msg : String) : Bool × (String → Nat) :=
  if sampling < 100 ∧ sampling < draw then (false, counter)
  else if first_n > 0 then
    let key := md5_hexdigest msg
    if (counter key : Int) > first_n then (false, counter)
    else (true, fun k => if k = key then counter k + 1 else counter k)
  else (true, counter)

/-- One call to a module-level wrapper such as `glog.debug` or `glog.info`:
the wrapper's name, the message text, and the keyword controls, plus the
random draw consumed if sampling applies. -/
structure Call where
  wrapper : String
  msg : String
  sampling : ℚ
  first_n : Int
  draw : ℚ

/-- Module state: each `log_wrapper(name)` call builds its own fresh
`defaultdict(int)`, so the state maps a wrapper name to that wrapper's
counter map. -/
def run_call (st : String → String → Nat) (c : Call) :
    Bool × (String → String → Nat) :=
  let r := conditional_log (st c.wrapper) c.sampling c.first_n c.draw c.msg
  (r.1, fun w => if w = c.wrapper then r.2 else st w)

/-- Run a sequence of wrapper calls from a module state, collecting which
calls were emitted. -/
def run_calls (st : String → String → Nat) : List Call → List Bool
  | [] => []
  | c :: cs =>
      let r := run_call st c
      r.1 :: run_calls r.2 cs

/-- Modelled from the spec: a single process-wide counter map shared by every
wrapper ("SamplingState: process-wide mapping from a message-content hash to
an occurrence counter").  Used only to compare the spec's sharing claim with
the per-wrapper maps the code actually builds. -/
def run_call_shared (st : String → Nat) (c : Call) : Bool × (String → Nat) :=
  conditional_log st c.sampling c.first_n c.draw c.msg

/-- Sequence runner for the spec-modelled single shared counter map. -/
def run_calls_shared (st : String → Nat) : List Call → List Bool
  | [] => []
  | c :: cs =>
      let r := run_call_shared st c
      r.1 :: run_calls_shared r.2 cs

/-- Call one wrapper `n` times with the same message text (`sampling` left at
its default 100, so the draw is never consulted) and count the emitted
calls. -/
def run_repeat (counter : String → Nat) (first_n : Int) (msg : String) :
    Nat → Nat
  | 0 => 0
  | n + 1 =>
      let r := conditional_log counter 100 first_n 0 msg
      (if r.1 then 1 else 0) + run_repeat r.2 first_n msg n

/-! ### Concrete inputs used by witnesses and counterexamples -/

/-- Outermost frame of a concrete captured stack: module level. -/
def csF1 : Frame := ⟨"/app/main.py", 10, "main", "run()"⟩

/-- The failure site: the function that invoked the failing check. -/
def csF2 : Frame := ⟨"/app/helper.py", 20, "run", "check_eq(5, 6)"⟩

/-- The check primitive's own frame. -/
def csF3 : Frame := ⟨"/app/glog.py", 263, "check_eq", "check_failed(message)"⟩

/-- The `check_failed` frame, innermost at capture time. -/
def csF4 : Frame :=
  ⟨"/app/glog.py", 224, "check_failed", "stack = traceback.extract_stack()"⟩

/-- A concrete captured stack as `traceback.extract_stack()` would produce it
inside `check_failed`, outermost frame first. -/
def cs_stack : List Frame := [csF1, csF2, csF3, csF4]

/-- A concrete log record: DEBUG, Jan 2 03:04:05.123456, no process id,
message `hello` with no arguments. -/
def exRecord : LogRecord :=
  ⟨10, ⟨1, 2, 3, 4, 5⟩, 123456, none, [.lit "hello"], []⟩

/-- A log record whose message has one `%s` placeholder but no arguments: the
`%`-formatting of `record.msg % record.args` raises `TypeError`. -/
def mismatchRecord : LogRecord :=
  ⟨20, ⟨1, 2, 3, 4, 5⟩, 0, some 42, [.lit "value: ", .conv], []⟩

/-- Three calls with identical text through two different wrappers, each with
`first_n = 1`. -/
def c8_calls : List Call :=
  [⟨"debug", "x", 100, 1, 0⟩, ⟨"info", "x", 100, 1, 0⟩,
   ⟨"debug", "x", 100, 1, 0⟩]

/-! ## Theorems -/

/-! ### Decimal/padding lemmas -/

theorem natDigitsAux_eq_digits : ∀ (fuel n : Nat), n ≤ fuel →
    natDigitsAux fuel n = Nat.digits 10 n
  | 0, n, h => by
    have hn : n = 0 := Nat.le_zero.mp h
    simp [natDigitsAux, hn]
  | fuel + 1, n, h => by
    by_cases hn : n = 0
    · simp [natDigitsAux, hn]
    · have hdiv : n / 10 ≤ fuel := by
        have : n / 10 < n := Nat.div_lt_self (Nat.pos_of_ne_zero hn) (by norm_num)
        omega
      rw [natDigitsAux, if_neg hn, natDigitsAux_eq_digits fuel (n / 10) hdiv,
        Nat.digits_def' (by norm_num : (1:Nat) < 10) (Nat.pos_of_ne_zero hn)]

theorem natDigits_eq_digits (n : Nat) : natDigits n = Nat.digits 10 n :=
  natDigitsAux_eq_digits n n le_rfl

theorem natDecimal_length_le (n w : Nat) (hw : 0 < w) (h : n < 10 ^ w) :
    (natDecimal n).length ≤ w := by
  unfold natDecimal
  by_cases hn : n = 0
  · simpa [hn] using hw
  · rw [if_neg hn]
    show (((natDigits n).map digitChar).reverse).length ≤ w
    rw [List.length_reverse, List.length_map, natDigits_eq_digits,
      Nat.digits_len 10 n (by norm_num) hn]
    have := Nat.log_lt_of_lt_pow hn h
    omega

theorem pad_length (width n : Nat) (hw : 0 < width) (h : n < 10 ^ width) :
    (pad width n).length = width := by
  have hle := natDecimal_length_le n width hw h
  unfold pad
  rw [String.length_append]
  show (List.replicate (width - (natDecimal n).length) '0').length + _ = _
  rw [List.length_replicate]
  omega

/-! ### Helper lemmas on `basename` and the trimmed stack -/

theorem takeWhile_append_slash (q : Char → Bool) (hq : q '/' = false) :
    ∀ (xs ys : List Char), (xs ++ '/' :: ys).takeWhile q = xs.takeWhile q
  | [], ys => by simp [List.takeWhile_cons, hq]
  | x :: xs, ys => by
    simp only [List.cons_append, List.takeWhile_cons,
      takeWhile_append_slash q hq xs ys]

theorem basename_append_dir (dir rest : String) :
    basename (dir ++ "/" ++ rest) = basename rest := by
  have hslash : ("/" : String).data = ['/'] := rfl
  have h1 : (dir ++ "/" ++ rest).data.reverse
      = rest.data.reverse ++ '/' :: dir.data.reverse := by
    simp [String.data_append, hslash]
  unfold basename
  rw [h1, takeWhile_append_slash _ rfl]

theorem basename_no_slash (p : String) : '/' ∉ (basename p).data := by
  intro hm
  have hm' : '/' ∈ (p.data.reverse.takeWhile (fun c => c != '/')).reverse := hm
  rw [List.mem_reverse] at hm'
  exact absurd (List.mem_takeWhile_imp hm') (by decide)

theorem trimmed_stack_eq_dropLast (st : List Frame) :
    trimmed_stack st = st.dropLast.dropLast := by
  simp only [trimmed_stack, List.dropLast_eq_take, List.length_take,
    List.take_take]
  congr 1
  omega

theorem trimmed_stack_getLast_exists (st : List Frame) (h : 3 ≤ st.length) :
    ∃ f, (trimmed_stack st).getLast? = some f := by
  have hlen : (trimmed_stack st).length = min (st.length - 2) st.length := by
    rw [trimmed_stack]; exact List.length_take _ _
  have hne : trimmed_stack st ≠ [] := by
    intro hempty
    rw [hempty] at hlen
    simp only [List.length_nil] at hlen
    omega
  cases hl : (trimmed_stack st).getLast? with
  | none => exact absurd (List.getLast?_eq_none_iff.mp hl) hne
  | some f => exact ⟨f, rfl⟩

theorem run_check_failed_spec (m : String) (st : List Frame)
    (h : 3 ≤ st.length) : failsAs (run_check_failed m st) m st := by
  obtain ⟨f, hf⟩ := trimmed_stack_getLast_exists st h
  exact ⟨f, hf, by simp [run_check_failed, check_failed, hf]⟩

/-! ### Claim C1 -/

/-- C1: for every check primitive, when its failure condition holds the
pipeline emits exactly one CRITICAL (50) record carrying the failure message
and the failure site's file/line, then one DEBUG (10) record reading
`Check failed here:`, then exactly one DEBUG record per rendered stack-trace
line, and only then raises `FailedCheckException` carrying the message, which
propagates (`CheckResult.failed`) and is never swallowed; when the failure
condition does not hold the primitive returns `.ok` with no emission and no
raise.  `st` is the stack captured by `traceback.extract_stack()` inside
`check_failed` (at least three frames deep whenever a primitive is called
from anywhere). -/
theorem check_primitives_report (a b : Int) (o : Option Int) (c : Bool)
    (msg : Option String) (st : List Frame) (h : 3 ≤ st.length) :
    (c = true → check c msg st = .ok) ∧
    (c = false → failsAs (check c msg st) (msg.getD "Check failed.") st) ∧
    (a = b → check_eq a b msg st = .ok) ∧
    (a ≠ b → failsAs (check_eq a b msg st)
      (msg.getD ("Check failed: " ++ toString a ++ " != " ++ toString b)) st) ∧
    (a ≠ b → check_ne a b msg st = .ok) ∧
    (a = b → failsAs (check_ne a b msg st)
      (msg.getD ("Check failed: " ++ toString a ++ " == " ++ toString b)) st) ∧
    (a ≤ b → check_le a b msg st = .ok) ∧
    (b < a → failsAs (check_le a b msg st)
      (msg.getD ("Check failed: " ++ toString a ++ " > " ++ toString b)) st) ∧
    (b ≤ a → check_ge a b msg st = .ok) ∧
    (a < b → failsAs (check_ge a b msg st)
      (msg.getD ("Check failed: " ++ toString a ++ " < " ++ toString b)) st) ∧
    (a < b → check_lt a b msg st = .ok) ∧
    (b ≤ a → failsAs (check_lt a b msg st)
      (msg.getD ("Check failed: " ++ toString a ++ " >= " ++ toString b)) st) ∧
    (b < a → check_gt a b msg st = .ok) ∧
    (a ≤ b → failsAs (check_gt a b msg st)
      (msg.getD ("Check failed: " ++ toString a ++ " <= " ++ toString b)) st) ∧
    (o ≠ none → check_notnone o msg st = .ok) ∧
    (o = none → failsAs (check_notnone o msg st)
      (msg.getD "Check failed: Object is None.") st) := by
  refine ⟨fun hc => by simp [check, hc],
    fun hc => by simpa [check, hc] using run_check_failed_spec _ st h,
    fun hc => by simp [check_eq, hc],
    fun hc => by
      rw [check_eq, if_pos hc]; exact run_check_failed_spec _ st h,
    fun hc => by simp [check_ne, hc],
    fun hc => by
      rw [check_ne, if_pos hc]; exact run_check_failed_spec _ st h,
    fun hc => by rw [check_le, if_neg (by omega)],
    fun hc => by
      rw [check_le, if_pos (by omega : a > b)]
      exact run_check_failed_spec _ st h,
    fun hc => by rw [check_ge, if_neg (by omega)],
    fun hc => by
      rw [check_ge, if_pos hc]; exact run_check_failed_spec _ st h,
    fun hc => by rw [check_lt, if_neg (by omega)],
    fun hc => by
      rw [check_lt, if_pos hc]; exact run_check_failed_spec _ st h,
    fun hc => by rw [check_gt, if_neg (by omega)],
    fun hc => by
      rw [check_gt, if_pos hc]; exact run_check_failed_spec _ st h,
    fun hc => by simp [check_notnone, hc],
    fun hc => by
      rw [check_notnone, if_pos hc]; exact run_check_failed_spec _ st h⟩

/-- Witness for C1 at a concrete stack: `check_eq 5 5` returns normally and
`check_eq 5 6` raises after emitting exactly the documented records. -/
theorem check_primitives_report_witness :
    check_eq 5 5 none cs_stack = CheckResult.ok ∧
    failsAs (check_eq 5 6 none cs_stack) "Check failed: 5 != 6" cs_stack := by
  have H5 := check_primitives_report 5 5 (some 0) true none cs_stack (by decide)
  have H6 := check_primitives_report 5 6 (some 0) true none cs_stack (by decide)
  refine ⟨H5.2.2.1 rfl, ?_⟩
  have hs : (none : Option String).getD
      ("Check failed: " ++ toString (5 : Int) ++ " != " ++ toString (6 : Int))
      = "Check failed: 5 != 6" := by decide
  have h2 := H6.2.2.2.1 (by decide)
  rwa [hs] at h2

/-! ### Claim C2 -/

/-- C2: the trimming step discards exactly the two innermost frames of the
captured stack, and rendering maps each remaining frame, in order, to exactly
the line `"\t<basename(file)>::<function>:<line>\t<source_text>"`, where
`basename` strips all directory components (it is invariant under prepending
a directory and its output contains no separator). -/
theorem trim_and_render (st : List Frame) (p dir rest : String) :
    trimmed_stack st = st.dropLast.dropLast ∧
    format_stacktrace st = st.map (fun f =>
      "\t" ++ basename f.filename ++ "::" ++ f.name ++ ":" ++
        natDecimal f.lineno ++ "\t" ++ f.line) ∧
    basename (dir ++ "/" ++ rest) = basename rest ∧
    '/' ∉ (basename p).data := by
  refine ⟨trimmed_stack_eq_dropLast st, ?_, basename_append_dir dir rest,
    basename_no_slash p⟩
  simp [format_stacktrace, render_frame_line, String.append_assoc]

/-! ### Claim C3 -/

/-- C3 is refuted: on a concrete four-frame stack the FIRST rendered
stack-trace line corresponds to the outermost frame (`main.py`), not to the
failure site (`helper.py`, the immediate caller of the failed check), which
is the LAST frame of the trimmed stack and the one the failure records are
attributed to. -/
theorem first_rendered_line_not_failure_site :
    (format_stacktrace (trimmed_stack cs_stack)).head? =
      some (render_frame_line csF1) ∧
    (trimmed_stack cs_stack).getLast? = some csF2 ∧
    check_failed "Check failed: 5 != 6" cs_stack =
      some (failure_records "Check failed: 5 != 6" csF2 (trimmed_stack cs_stack),
        "Check failed: 5 != 6") ∧
    (format_stacktrace (trimmed_stack cs_stack)).head? ≠
      some (render_frame_line csF2) := by
  decide

/-- C3 (amended): the LAST rendered stack-trace line corresponds to the
failure site (the immediate caller of the failed check primitive, i.e. the
last frame of the trimmed stack), and the primary CRITICAL record is
attributed to that frame's file/line; the first rendered line corresponds to
the outermost retained frame. -/
theorem failure_site_is_last_rendered_line (st : List Frame) (f : Frame)
    (h : (trimmed_stack st).getLast? = some f) :
    (format_stacktrace (trimmed_stack st)).getLast? =
      some (render_frame_line f) ∧
    (format_stacktrace (trimmed_stack st)).head? =
      (trimmed_stack st).head?.map render_frame_line ∧
    ∀ m recs em, check_failed m st = some (recs, em) →
      recs.head? = some ⟨50, f.filename, f.lineno, m⟩ := by
  refine ⟨?_, ?_, ?_⟩
  · rw [format_stacktrace, List.getLast?_map, h]; rfl
  · rw [format_stacktrace, List.head?_map]
  · intro m recs em hc
    rw [check_failed, h] at hc
    injection hc with h1
    injection h1 with h2 h3
    rw [← h2]
    rfl

/-- Witness for the amended C3 on the concrete stack. -/
theorem failure_site_is_last_rendered_line_witness :
    (format_stacktrace (trimmed_stack cs_stack)).getLast? =
      some (render_frame_line csF2) ∧
    (check_failed "boom" cs_stack).map (fun r => r.1.head?) =
      some (some ⟨50, csF2.filename, csF2.lineno, "boom"⟩) := by
  have H := failure_site_is_last_rendered_line cs_stack csF2 (by decide)
  refine ⟨H.1, ?_⟩
  have hc : check_failed "boom" cs_stack =
      some (failure_records "boom" csF2 (trimmed_stack cs_stack), "boom") := by
    decide
  rw [hc, Option.map_some']
  rw [H.2.2 "boom" _ _ hc]

/-! ### Claim C4 -/

/-- C4: `check_le a b` raises a check failure iff `a > b`; when `a > b` and
no message argument is given the raised failure carries the default message
`"Check failed: <a> > <b>"`. -/
theorem check_le_fails_iff (a b : Int) (msg : Option String)
    (st : List Frame) (h : 3 ≤ st.length) :
    (check_le a b msg st = .ok ↔ a ≤ b) ∧
    (b < a → failsAs (check_le a b none st)
      ("Check failed: " ++ toString a ++ " > " ++ toString b) st) := by
  constructor
  · constructor
    · intro hok
      by_contra hgt
      obtain ⟨f, hf, hr⟩ := run_check_failed_spec
        (msg.getD ("Check failed: " ++ toString a ++ " > " ++ toString b)) st h
      rw [check_le, if_pos (by omega : a > b), hr] at hok
      exact CheckResult.noConfusion hok
    · intro hle
      rw [check_le, if_neg (by omega)]
  · intro hgt
    rw [check_le, if_pos (by omega : a > b)]
    simpa using
      run_check_failed_spec
        ("Check failed: " ++ toString a ++ " > " ++ toString b) st h

/-- Witness for C4: `check_le(3,5)` and `check_le(5,5)` pass; `check_le(6,5)`
fails with the default message `"Check failed: 6 > 5"`. -/
theorem check_le_fails_iff_witness :
    check_le 3 5 none cs_stack = CheckResult.ok ∧
    check_le 5 5 none cs_stack = CheckResult.ok ∧
    failsAs (check_le 6 5 none cs_stack) "Check failed: 6 > 5" cs_stack := by
  have H35 := check_le_fails_iff 3 5 none cs_stack (by decide)
  have H55 := check_le_fails_iff 5 5 none cs_stack (by decide)
  have H65 := check_le_fails_iff 6 5 none cs_stack (by decide)
  have hs : ("Check failed: " ++ toString (6 : Int) ++ " > " ++
      toString (5 : Int)) = "Check failed: 6 > 5" := by decide
  refine ⟨H35.1.mpr (by decide), H55.1.mpr (by decide), ?_⟩
  have h2 := H65.2 (by decide)
  rwa [hs] at h2

/-! ### Claim C5 -/

/-- C5: the formatter produces exactly the line
`<SeverityLetter><MM><DD> <HH>:<MM>:<SS>.<uuuuuu> <PID|?????> <filename>:<line>] <message>`;
the severity letter is the fixed bijection DEBUG→D, INFO→I, WARN→W, ERROR→E,
FATAL/CRITICAL→F with `?` for any unrecognized severity; month, day, hour,
minute and second are zero-padded to exactly 2 characters and the
microseconds to exactly 6; the PID field is the literal `?????` when no
process id is available. -/
theorem glog_format_line (r : LogRecord) (filename : String) (lineno : Nat)
    (hmon : r.date.tm_mon < 100) (hday : r.date.tm_mday < 100)
    (hhour : r.date.tm_hour < 100) (hmin : r.date.tm_min < 100)
    (hsec : r.date.tm_sec < 100) (husec : r.usec < 1000000) :
    GlogFormatter.format r filename lineno =
      LEVEL_MAP r.levelno ++ pad 2 r.date.tm_mon ++ pad 2 r.date.tm_mday ++
      " " ++ pad 2 r.date.tm_hour ++ ":" ++ pad 2 r.date.tm_min ++ ":" ++
      pad 2 r.date.tm_sec ++ "." ++ pad 6 r.usec ++ " " ++
      pid_str r.process ++ " " ++ filename ++ ":" ++ natDecimal lineno ++
      "] " ++ format_message r.msg r.args ∧
    (LEVEL_MAP 10 = "D" ∧ LEVEL_MAP 20 = "I" ∧ LEVEL_MAP 30 = "W" ∧
      LEVEL_MAP 40 = "E" ∧ LEVEL_MAP 50 = "F") ∧
    (r.levelno ≠ 10 → r.levelno ≠ 20 → r.levelno ≠ 30 → r.levelno ≠ 40 →
      r.levelno ≠ 50 → LEVEL_MAP r.levelno = "?") ∧
    ((pad 2 r.date.tm_mon).length = 2 ∧ (pad 2 r.date.tm_mday).length = 2 ∧
      (pad 2 r.date.tm_hour).length = 2 ∧ (pad 2 r.date.tm_min).length = 2 ∧
      (pad 2 r.date.tm_sec).length = 2 ∧ (pad 6 r.usec).length = 6) ∧
    (r.process = none → pid_str r.process = "?????") := by
  have h100 : (100 : Nat) = 10 ^ 2 := by norm_num
  have h1e6 : (1000000 : Nat) = 10 ^ 6 := by norm_num
  refine ⟨rfl, ⟨rfl, rfl, rfl, rfl, rfl⟩, ?_, ?_, ?_⟩
  · intro h10 h20 h30 h40 h50
    simp [LEVEL_MAP, h10, h20, h30, h40, h50]
  · exact ⟨pad_length 2 _ (by norm_num) (h100 ▸ hmon),
      pad_length 2 _ (by norm_num) (h100 ▸ hday),
      pad_length 2 _ (by norm_num) (h100 ▸ hhour),
      pad_length 2 _ (by norm_num) (h100 ▸ hmin),
      pad_length 2 _ (by norm_num) (h100 ▸ hsec),
      pad_length 6 _ (by norm_num) (h1e6 ▸ husec)⟩
  · intro hp
    rw [hp, pid_str]

/-- Witness for C5: the formatter on a concrete record (DEBUG, Jan 2
03:04:05.123456, no pid). -/
theorem glog_format_line_witness :
    GlogFormatter.format exRecord "main.py" 23 =
      "D0102 03:04:05.123456 ????? main.py:23] hello" ∧
    (pad 6 exRecord.usec).length = 6 ∧
    pid_str exRecord.process = "?????" := by
  have H := glog_format_line exRecord "main.py" 23 (by decide) (by decide)
    (by decide) (by decide) (by decide) (by decide)
  obtain ⟨h1, _, _, ⟨_, _, _, _, _, p6⟩, hpid⟩ := H
  refine ⟨?_, p6, hpid rfl⟩
  rw [h1]
  decide

/-! ### Claim C9 -/

theorem percentFormat_some_counts :
    ∀ (msg : List Seg) (args : List String) (s : String),
      percentFormat msg args = some s → placeholders msg = args.length
  | [], [], _, _ => rfl
  | [], _ :: _, _, h => by simp [percentFormat] at h
  | .lit t :: rest, args, s, h => by
    rw [percentFormat] at h
    cases hrec : percentFormat rest args with
    | none => rw [hrec] at h; simp at h
    | some u =>
      rw [placeholders]
      exact percentFormat_some_counts rest args u hrec
  | .conv :: rest, [], s, h => by simp [percentFormat] at h
  | .conv :: rest, a :: args, s, h => by
    rw [percentFormat] at h
    cases hrec : percentFormat rest args with
    | none => rw [hrec] at h; simp at h
    | some u =>
      rw [placeholders, percentFormat_some_counts rest args u hrec,
        List.length_cons]
      omega

/-- C9: when `%`-formatting the message with its positional arguments fails
because of an argument/placeholder mismatch, `format_message` falls back to
the raw unformatted message text and never raises, and the formatter still
produces a complete log line ending in that raw text. -/
theorem format_message_fallback (r : LogRecord) (filename : String)
    (lineno : Nat) (h : placeholders r.msg ≠ r.args.length) :
    format_message r.msg r.args = msgText r.msg ∧
    GlogFormatter.format r filename lineno =
      (LEVEL_MAP r.levelno ++ pad 2 r.date.tm_mon ++ pad 2 r.date.tm_mday ++
       " " ++ pad 2 r.date.tm_hour ++ ":" ++ pad 2 r.date.tm_min ++ ":" ++
       pad 2 r.date.tm_sec ++ "." ++ pad 6 r.usec ++ " " ++
       pid_str r.process ++ " " ++ filename ++ ":" ++ natDecimal lineno ++
       "] ") ++ msgText r.msg := by
  have hnone : percentFormat r.msg r.args = none := by
    cases hp : percentFormat r.msg r.args with
    | none => rfl
    | some s => exact absurd (percentFormat_some_counts _ _ s hp) h
  have h1 : format_message r.msg r.args = msgText r.msg := by
    rw [format_message, hnone]
  refine ⟨h1, ?_⟩
  rw [GlogFormatter.format, h1]

/-- Witness for C9: a message with a `%s` placeholder but no arguments is
logged as its raw text. -/
theorem format_message_fallback_witness :
    format_message mismatchRecord.msg mismatchRecord.args = "value: %s" ∧
    GlogFormatter.format mismatchRecord "app.py" 7 =
      "I0102 03:04:05.000000 42 app.py:7] value: %s" := by
  have H := format_message_fallback mismatchRecord "app.py" 7 (by decide)
  refine ⟨by rw [H.1]; decide, ?_⟩
  rw [H.2]
  decide

/-! ### Claim C6 -/

/-- C6 is refuted at its own example: with `first_n = 2`, logging the same
message text 5 times emits 3 calls and suppresses exactly 2 — not the 3
suppressed calls the claim states. -/
theorem first_n_five_calls_cex :
    run_repeat (fun _ => 0) 2 "x" 5 = 3 ∧
    5 - run_repeat (fun _ => 0) 2 "x" 5 = 2 ∧
    5 - run_repeat (fun _ => 0) 2 "x" 5 ≠ 3 := by
  decide

theorem run_repeat_count (N : Nat) (hN : 0 < N) (msg : String) :
    ∀ (n : Nat) (counter : String → Nat),
      run_repeat counter (N : Int) msg n =
        min n (N + 1 - counter (md5_hexdigest msg))
  | 0, counter => by simp [run_repeat]
  | n + 1, counter => by
    have hN' : ((N : Int)) > 0 := by exact_mod_cast hN
    have hff : ¬ ((100 : ℚ) < 100 ∧ (100 : ℚ) < 0) := by norm_num
    by_cases hv : N < counter (md5_hexdigest msg)
    · have hc : ((counter (md5_hexdigest msg) : Int)) > (N : Int) := by
        exact_mod_cast hv
      simp only [run_repeat, conditional_log, if_neg hff, if_pos hN',
        if_pos hc, run_repeat_count N hN msg n]
      simp
      omega
    · have hc : ¬ (((counter (md5_hexdigest msg) : Int)) > (N : Int)) := by
        push_neg
        exact_mod_cast Nat.not_lt.mp hv
      simp only [run_repeat, conditional_log, if_neg hff, if_pos hN',
        if_neg hc, run_repeat_count N hN msg n]
      simp
      omega

/-- C6 (amended): with `first_n = 2`, logging the same message text 5 times
results in exactly 2 suppressed calls (3 emissions); in general, for every
`first_n > 0`, repeating identical message text `n` times yields exactly
`min n (first_n + 1)` emissions — i.e. `first_n + 1` total emissions before
suppression begins (the call is emitted while the per-hash counter is
`≤ first_n`). -/
theorem first_n_emission_count (N n : Nat) (hN : 0 < N) (msg : String) :
    run_repeat (fun _ => 0) (N : Int) msg n = min n (N + 1) ∧
    (N + 1 ≤ n →
      n - run_repeat (fun _ => 0) (N : Int) msg n = n - (N + 1)) := by
  have h := run_repeat_count N hN msg n (fun _ => 0)
  simp only [Nat.sub_zero] at h
  exact ⟨h, fun _ => by omega⟩

/-- Witness for the amended C6 at `first_n = 2`, 5 identical calls. -/
theorem first_n_emission_count_witness :
    run_repeat (fun _ => 0) (2 : Int) "x" 5 = 3 ∧
    5 - run_repeat (fun _ => 0) (2 : Int) "x" 5 = 2 := by
  have h1 := (first_n_emission_count 2 5 (by decide) "x").1
  push_cast at h1
  constructor <;> omega

/-! ### Claim C7 -/

/-- C7 is refuted at draw 0: `random.random() * 100` ranges over `[0, 100)`,
and when the draw is exactly 0 a call with `sampling = 0` is NOT suppressed
(the code suppresses only when `sampling < draw`), so `sampling=0` is not
always suppressed over all draws in `[0, 100)`. -/
theorem sampling_zero_draw_zero_cex :
    (0 : ℚ) ≤ 0 ∧ (0 : ℚ) < 100 ∧
    (conditional_log (fun _ => 0) 0 (-1) 0 "x").1 = true := by
  decide

/-- C7 (amended): a call with `sampling = 0` is suppressed for every strictly
positive draw in `(0, 100)` (and emitted exactly when the draw is 0), and a
call with `sampling = 100` is always emitted with the probabilistic test
skipped entirely — the result does not depend on the draw. -/
theorem sampling_boundary (counter : String → Nat) (first_n : Int)
    (draw d' : ℚ) (msg : String) :
    (0 < draw → (conditional_log counter 0 first_n draw msg).1 = false) ∧
    (conditional_log counter 100 (-1) draw msg).1 = true ∧
    conditional_log counter 100 first_n d' msg =
      conditional_log counter 100 first_n draw msg := by
  refine ⟨fun hd => ?_, ?_, ?_⟩
  · have hc : (0 : ℚ) < 100 ∧ (0 : ℚ) < draw := ⟨by norm_num, hd⟩
    simp [conditional_log, hc]
  · norm_num [conditional_log]
  · norm_num [conditional_log]

/-- Witness for the amended C7 at concrete draws. -/
theorem sampling_boundary_witness :
    (conditional_log (fun _ => 0) 0 (-1) 50 "x").1 = false ∧
    (conditional_log (fun _ => 0) 100 (-1) 50 "x").1 = true ∧
    conditional_log (fun _ => 0) 100 (-1) 7 "x" =
      conditional_log (fun _ => 0) 100 (-1) 50 "x" := by
  have H := sampling_boundary (fun _ => 0) (-1) 50 7 "x"
  exact ⟨H.1 (by norm_num), H.2.1, H.2.2⟩

/-! ### Claim C8 -/

/-- C8 is refuted: the counter maps are per-wrapper (each `log_wrapper` call
builds a fresh `defaultdict`), not one process-wide map.  Three calls with
identical text and `first_n = 1` — two via `debug`, one via `info` — are all
emitted by the code, whereas a single shared counter map would suppress the
third. -/
theorem shared_counter_cex :
    run_calls (fun _ _ => 0) c8_calls = [true, true, true] ∧
    run_calls_shared (fun _ => 0) c8_calls = [true, true, false] ∧
    run_calls (fun _ _ => 0) c8_calls ≠
      run_calls_shared (fun _ => 0) c8_calls := by
  decide

/-- C8 (amended): each wrapper function owns its own counter map keyed only
by the hash of the message content: a call touches no other wrapper's map and
no other key of its own wrapper's map, and its emission decision depends on
the state only through its own wrapper's counter at the message hash — so two
calls through the same wrapper with identical text consult and increment the
same counter regardless of call site, while calls through distinct wrappers
do not share a counter. -/
theorem per_wrapper_counter (st : String → String → Nat) (c : Call) :
    (∀ w, w ≠ c.wrapper → (run_call st c).2 w = st w) ∧
    (∀ k, k ≠ md5_hexdigest c.msg →
      (run_call st c).2 c.wrapper k = st c.wrapper k) ∧
    (∀ st' : String → String → Nat,
      st' c.wrapper (md5_hexdigest c.msg) =
        st c.wrapper (md5_hexdigest c.msg) →
      (run_call st' c).1 = (run_call st c).1) := by
  refine ⟨fun w hw => ?_, fun k hk => ?_, fun st' hst => ?_⟩
  · simp [run_call, hw]
  · by_cases h1 : c.sampling < 100 ∧ c.sampling < c.draw
    · simp [run_call, conditional_log, h1]
    · by_cases h2 : c.first_n > 0
      · by_cases h3 : ((st c.wrapper (md5_hexdigest c.msg) : Int)) > c.first_n
        · simp [run_call, conditional_log, h1, h2, h3]
        · simp [run_call, conditional_log, h1, h2, h3, hk]
      · simp [run_call, conditional_log, h1, h2]
  · by_cases h1 : c.sampling < 100 ∧ c.sampling < c.draw
    · simp [run_call, conditional_log, h1]
    · by_cases h2 : c.first_n > 0
      · simp only [run_call, conditional_log, if_neg h1, if_pos h2, hst]
        by_cases h3 : ((st c.wrapper (md5_hexdigest c.msg) : Int)) > c.first_n
        · rw [if_pos h3, if_pos h3]
        · rw [if_neg h3, if_neg h3]
      · simp [run_call, conditional_log, h1, h2]

/-- Witness for the amended C8: a `debug` call leaves `info`'s counter map
and other keys untouched, and its emission decision ignores other wrappers'
counters. -/
theorem per_wrapper_counter_witness :
    (run_call (fun _ _ => 0) ⟨"debug", "x", 100, 1, 0⟩).2 "info" "x" = 0 ∧
    (run_call (fun _ _ => 0) ⟨"debug", "x", 100, 1, 0⟩).2 "debug" "y" = 0 ∧
    (run_call (fun w _ => if w = "info" then 7 else 0)
        ⟨"debug", "x", 100, 1, 0⟩).1 =
      (run_call (fun _ _ => 0) ⟨"debug", "x", 100, 1, 0⟩).1 := by
  have H := per_wrapper_counter (fun _ _ => 0) ⟨"debug", "x", 100, 1, 0⟩
  refine ⟨?_, H.2.1 "y" (by decide), H.2.2 _ (by decide)⟩
  rw [H.1 "info" (by decide)]

/-! ### Claim C10 -/

/-- C10: when `first_n ≤ 0` — including `first_n = 0`, not only the default
`-1` — the first-N mechanism is entirely inactive: the counter map is never
mutated, the emission decision is exactly the sampling decision, and it is
independent of the counter map and of the message content. -/
theorem first_n_nonpos_inactive (counter : String → Nat) (sampling draw : ℚ)
    (msg : String) (first_n : Int) (h : first_n ≤ 0) :
    (conditional_log counter sampling first_n draw msg).2 = counter ∧
    ((conditional_log counter sampling first_n draw msg).1 = true ↔
      ¬ (sampling < 100 ∧ sampling < draw)) ∧
    (∀ (counter' : String → Nat) (msg' : String),
      (conditional_log counter' sampling first_n draw msg').1 =
        (conditional_log counter sampling first_n draw msg).1) := by
  have hng : ¬ (first_n > 0) := by omega
  by_cases h1 : sampling < 100 ∧ sampling < draw
  · simp [conditional_log, h1, hng]
  · simp [conditional_log, h1, hng]

/-- Witness for C10 at `first_n = 0` with a nonzero counter map. -/
theorem first_n_nonpos_inactive_witness :
    (conditional_log (fun _ => 5) 50 0 10 "x").2 =
      (fun _ => 5 : String → Nat) ∧
    (conditional_log (fun _ => 5) 50 0 10 "x").1 = true ∧
    (conditional_log (fun _ => 9) 50 0 10 "y").1 =
      (conditional_log (fun _ => 5) 50 0 10 "x").1 := by
  have H := first_n_nonpos_inactive (fun _ => 5) 50 10 "x" 0 (by norm_num)
  exact ⟨H.1, H.2.1.mpr (by norm_num), H.2.2 (fun _ => 9) "y"⟩

end Glog
